import Mathlib

/-!
Shallow embedding of the Xopt optimization driver (`src/xopt/base.py`).

The driver class `Xopt` is embedded as the structure `XoptState`; its methods
(`add_data`, `reset_data`, `remove_data`, `evaluate`, `evaluate_data`, `step`,
`run`, `json`/`dict` serialization and `validate_model` reconstruction) are
embedded as pure functions on `XoptState`.  Stateful methods return a new
state; methods that can raise return `Except XError`.  A Python exception
aborts the method before any later mutation, so an `.error` result carries no
new state and the caller keeps the pre-call state.

Collaborators whose code is not under `src/` (the VOCS problem definition,
the evaluator's `validate_outputs`, `explode_all_columns` from utils, the
sequential-generator ordering check, and the generator registry) are
modelled from the spec; each such definition carries a doc comment starting
with `Modelled from the spec:`.

pandas `DataFrame`s are embedded as association lists: a `Row` maps column
names to cell values, a `DF` is a list of (integer index, row) pairs.
Numeric cell payloads are modelled as `Int` (the exact number type is
irrelevant to the claims being checked).
-/

set_option autoImplicit false

/-- Scalar cell value: a number, a string, or a missing value. -/
inductive SVal where
  | num : Int → SVal
  | str : String → SVal
  | null : SVal
deriving DecidableEq

/-- Cell value: a scalar, or a list of scalars (list-valued output cells
are what the explosion processor expands). -/
inductive Val where
  | sc : SVal → Val
  | vlist : List SVal → Val
deriving DecidableEq

/-- Whether a scalar is numeric. -/
def SVal.isNum : SVal → Bool
  | .num _ => true
  | _ => false

/-- Whether a cell is numeric: a numeric scalar, or a list of numeric
scalars (a list-valued cell that will explode into numeric scalars). -/
def Val.isNumeric : Val → Bool
  | .sc v => v.isNum
  | .vlist l => l.all SVal.isNum

/-- Whether a cell is list-valued. -/
def Val.isList : Val → Bool
  | .vlist _ => true
  | _ => false

/-- A table row: an association list from column name to cell value. -/
abbrev Row := List (String × Val)

/-- A data frame: rows paired with their (not necessarily dense) integer
index labels. -/
abbrev DF := List (Nat × Row)

/-- The index labels of a frame, in row order. -/
def dfIndex (d : DF) : List Nat := d.map Prod.fst

/-- Reindex a list of rows with consecutive labels `start, start+1, ...`
(the embedding of `new_data.index = np.arange(start, start + len(new_data))`). -/
def reindexFrom (start : Nat) (rows : List Row) : DF :=
  rows.enum.map (fun p => (start + p.1, p.2))

/-- Error taxonomy of the driver (spec section 7).  `base.py` raises Python
`ValueError` for configuration misuse; the spec names it ConfigurationError.
`KeyError` is what pandas `drop` raises on a missing index label. -/
inductive XError where
  | ConfigurationError
  | ValidationError
  | OutputValidationError
  | ShapeError
  | KeyError
deriving DecidableEq

/-- Modelled from the spec: the problem definition (VOCS) with its declared
variables, objectives, constraints and constant fields (`xopt/vocs.py` is
not under `src/`). -/
structure VOCS where
  vars : List String
  objectives : List String
  constraints : List String
  constants : List (String × Val)
deriving DecidableEq

/-- The declared output columns: objectives and constraints. -/
def outputNames (v : VOCS) : List String := v.objectives ++ v.constraints

/-- Set column `k` of a row to `v`: overwrite in place when present,
append otherwise (the embedding of `df[k] = v` for one row). -/
def rowSet (r : Row) (k : String) (v : Val) : Row :=
  if (r.lookup k).isSome then
    r.map (fun kv => if kv.1 = k then (k, v) else kv)
  else r ++ [(k, v)]

/-- Merge the declared constants into a row (the loop
`for name, value in self.vocs.constants.items(): data[name] = value`). -/
def setConsts (cs : List (String × Val)) (r : Row) : Row :=
  cs.foldl (fun acc kv => rowSet acc kv.1 kv.2) r

/-- Inject the constant columns into every row of a frame. -/
def addConstantsDF (v : VOCS) (d : DF) : DF :=
  d.map (fun p => (p.1, setConsts v.constants p.2))

/-- Modelled from the spec: `VOCS.validate_input_data` checks the input
schema against the problem definition — every declared variable must be
present in the row (`xopt/vocs.py` is not under `src/`). -/
def validateInputRow (v : VOCS) (r : Row) : Bool :=
  v.vars.all (fun x => (r.lookup x).isSome)

/-- Modelled from the spec: schema validation of a whole input table. -/
def validate_input_data (v : VOCS) (d : DF) : Bool :=
  d.all (fun p => validateInputRow v p.2)

/-- Modelled from the spec: `validate_outputs` (from `xopt/evaluator.py`,
not under `src/`) — under strict mode every declared objective/constraint
column must be present in every result row and hold a numeric value. -/
def validate_outputs (v : VOCS) (d : DF) : Bool :=
  d.all (fun p => (outputNames v).all (fun o =>
    match p.2.lookup o with
    | some x => x.isNumeric
    | none => false))

/-- The lengths of the list-valued output cells of a row, in row order. -/
def listOutputLens (v : VOCS) (r : Row) : List Nat :=
  r.filterMap (fun kv =>
    if kv.1 ∈ outputNames v then
      match kv.2 with
      | .vlist l => some l.length
      | _ => none
    else none)

/-- One entry of the `i`-th exploded row: a list-valued output cell is
replaced by its `i`-th element, every other cell is broadcast unchanged. -/
def explodeEntry (v : VOCS) (i : Nat) (kv : String × Val) : String × Val :=
  if kv.1 ∈ outputNames v then
    match kv.2 with
    | .vlist l => (kv.1, .sc (l.getD i .null))
    | _ => kv
  else kv

/-- Modelled from the spec: the explosion processor on one result row
(`explode_all_columns` from `xopt/utils.py` is not under `src/`) — a row
whose output cells are list-valued is split into one row per list element,
provided all list-valued output cells share one length `L`; scalar and
non-output cells are broadcast unchanged; divergent lengths are a
ShapeError. -/
def explodeRow (v : VOCS) (r : Row) : Except XError (List Row) :=
  match listOutputLens v r with
  | [] => .ok [r]
  | L :: rest =>
    if rest.all (fun x => x = L) then
      .ok ((List.range L).map (fun i => r.map (explodeEntry v i)))
    else .error .ShapeError

/-- Modelled from the spec: the explosion processor on a whole result
frame; the exploded rows are re-indexed densely from 0. -/
def explodeAllColumns (v : VOCS) (d : DF) : Except XError DF := do
  let rowsLists ← d.mapM (fun p => explodeRow v p.2)
  .ok (reindexFrom 0 rowsLists.flatten)

/-- The evaluator collaborator boundary: `max_workers` plus the
per-candidate objective function.  Modelled from the spec: the evaluator
executes the objective function for each given candidate, producing one
result row per input row (`xopt/evaluator.py` is not under `src/`). -/
structure Evaluator where
  max_workers : Nat
  evalRow : Row → Row

/-- The evaluator's blocking batch evaluation: one output row per input
row, index labels preserved. -/
def evalData (e : Evaluator) (d : DF) : DF :=
  d.map (fun p => (p.1, e.evalRow p.2))

/-- The generator collaborator boundary: its registered name, its
serializable parameter fields, its mirror of the dataset, its capability
flags (state-owning, sequential), the sequential runtime state (active
flag and outstanding candidate), and its `generate` entry point. -/
structure GenState where
  name : String
  params : Row
  data : DF
  isStateOwner : Bool
  isSequential : Bool
  is_active : Bool
  candidate : Row
  generate : Nat → Option DF

/-- Modelled from the spec: the accumulative mirroring capability —
`generator.add_data(new_data)` appends the new rows to the generator's
copy of the dataset. -/
def genAddData (g : GenState) (nd : DF) : GenState :=
  { g with data := g.data ++ nd }

/-- Whether a row agrees with a candidate record on all of the
candidate's own fields. -/
def rowAgrees (cand r : Row) : Bool :=
  cand.all (fun kv => r.lookup kv.1 = some kv.2)

/-- Modelled from the spec: `SequentialGenerator.validate_point`
(`xopt/generators/sequential` is not under `src/`) — the evaluated input
must exactly match the outstanding proposed candidate. -/
def validate_point (g : GenState) (d : DF) : Bool :=
  d.all (fun p => rowAgrees g.candidate p.2)

/-- The driver state: the embedding of the `Xopt` pydantic model's fields. -/
structure XoptState where
  vocs : VOCS
  generator : GenState
  evaluator : Evaluator
  strict : Bool
  dump_file : Option String
  max_evaluations : Option Nat
  data : Option DF
  serialize_torch : Bool
  serialize_inline : Bool

/-- The embedding of the `n_data` property: 0 when `data is None`. -/
def n_data (s : XoptState) : Nat :=
  match s.data with
  | none => 0
  | some d => d.length

/-- The dataset contents, reading `None` as the empty table. -/
def dataOrEmpty (s : XoptState) : DF := s.data.getD []

/-- The embedding of `Xopt.add_data`: the incoming rows are re-indexed
with consecutive labels starting at `len(self.data)` (`np.arange(len(
self.data), len(self.data) + len(new_data))`), or at 0 when `data` is
`None`, concatenated onto the dataset, and the re-indexed batch is passed
to `generator.add_data`. -/
def XoptState.add_data (s : XoptState) (rows : List Row) : XoptState :=
  match s.data with
  | some d =>
    let nd := reindexFrom d.length rows
    { s with data := some (d ++ nd), generator := genAddData s.generator nd }
  | none =>
    let nd := reindexFrom 0 rows
    { s with data := some nd, generator := genAddData s.generator nd }

/-- The embedding of `Xopt.reset_data`: dataset and generator mirror are
both cleared to an empty frame. -/
def XoptState.reset_data (s : XoptState) : XoptState :=
  { s with data := some [], generator := { s.generator with data := [] } }

/-- The embedding of `Xopt.remove_data`: drop the rows with the given
index labels (pandas `drop` raises on a missing label), re-index the
remainder densely from 0; with `inplace` both the dataset and the
generator mirror are replaced, otherwise the detached copy is returned
and the state is untouched. -/
def XoptState.remove_data (s : XoptState) (indices : List Nat) (inplace : Bool) :
    Except XError (XoptState × Option DF) :=
  match s.data with
  | none => .error .KeyError
  | some d =>
    if indices.all (fun i => i ∈ dfIndex d) then
      let kept := d.filter (fun p => ¬ p.1 ∈ indices)
      let nd := reindexFrom 0 (kept.map Prod.snd)
      if inplace then
        .ok ({ s with data := some nd, generator := { s.generator with data := nd } }, none)
      else .ok (s, some nd)
    else .error .KeyError

/-- The embedding of `Xopt.evaluate`: merge the declared constants into a
deep copy of the record, validate the merged record's schema, then
delegate the ORIGINAL record (`input_dict`, not the merged copy) to the
evaluator.  No field of the driver is assigned, so the unchanged state is
returned alongside the raw result; the caller's record is never mutated
(only the deep copy receives the constants). -/
def XoptState.evaluate (s : XoptState) (input : Row) : Except XError (XoptState × Row) :=
  let inputs := setConsts s.vocs.constants input
  if validateInputRow s.vocs inputs then
    .ok (s, s.evaluator.evalRow input)
  else .error .ValidationError

/-- The embedding of `Xopt.evaluate_data` on an input already in table
shape (the dict/list normalization branches only build this table).  In
source order: validate the input schema; inject the constant columns; if
the generator is a sequential variant that is active, require the input
to match its outstanding candidate; delegate to the evaluator; under
strict mode validate the declared outputs; explode list-valued output
cells; append the exploded rows via `add_data`.  The optional dump to
`dump_file` is a file-system side effect outside the state and is not
modelled. -/
def XoptState.evaluate_data (s : XoptState) (input : DF) :
    Except XError (XoptState × DF) :=
  if validate_input_data s.vocs input then
    let inputC := addConstantsDF s.vocs input
    if s.generator.isSequential && s.generator.is_active
        && !(validate_point s.generator inputC) then
      .error .ValidationError
    else
      let output := evalData s.evaluator inputC
      if s.strict && !(validate_outputs s.vocs output) then
        .error .OutputValidationError
      else
        match explodeAllColumns s.vocs output with
        | .error e => .error e
        | .ok exploded =>
          .ok (s.add_data (exploded.map Prod.snd), exploded)
  else .error .ValidationError

/-- The caller's state after an `evaluate_data` call under Python's
exception semantics: on success the mutated state, on an exception the
pre-call state (the method's only mutation, `add_data`, happens after all
validation). -/
def evaluateDataRes (s : XoptState) (input : DF) : XoptState :=
  match s.evaluate_data input with
  | .ok (s2, _) => s2
  | .error _ => s

/-- The embedding of `Xopt.step`: request `evaluator.max_workers`
candidates from the generator; if none are returned the step is a no-op,
otherwise forward the samples to `evaluate_data`. -/
def XoptState.step (s : XoptState) : Except XError XoptState :=
  match s.generator.generate s.evaluator.max_workers with
  | none => .ok s
  | some samples =>
    match s.evaluate_data samples with
    | .ok (s2, _) => .ok s2
    | .error e => .error e

/-- The body of `Xopt.run`'s `while True` loop, with explicit fuel:
`.ok none` means the fuel ran out with the loop still running, `.ok
(some s)` means the stopping criterion `n_data >= max_evaluations` was
met and the loop exited with final state `s`. -/
def runLoop (cap : Nat) : XoptState → Nat → Except XError (Option XoptState)
  | _, 0 => .ok none
  | s, fuel + 1 =>
    if cap ≤ n_data s then .ok (some s)
    else
      match s.step with
      | .error e => .error e
      | .ok s2 => runLoop cap s2 fuel

/-- The embedding of `Xopt.run`: fail with the configuration error when
`max_evaluations` is not set, otherwise iterate the stopping-criterion
check and `step`. -/
def runFuel (s : XoptState) (fuel : Nat) : Except XError (Option XoptState) :=
  match s.max_evaluations with
  | none => .error .ConfigurationError
  | some cap => runLoop cap s fuel

/-- The serialized document (the embedding of the JSON/YAML snapshot
produced by `Xopt.json`): problem definition, the generator block with
the registered name merged into the generator's own serializable fields,
the evaluator block, the scalar settings, and the full dataset. -/
structure XoptDoc where
  vocs : VOCS
  generatorBlock : Row
  maxWorkers : Nat
  strict : Bool
  dump_file : Option String
  max_evaluations : Option Nat
  serialize_torch : Bool
  serialize_inline : Bool
  data : Option DF

/-- The embedding of `Xopt.json`/`Xopt.dict`: the generator block is
`{"name": generator.name} | generator_fields` (the discriminator merged
into the generator's serializable field set); runtime-only generator
state (mirror, active candidate, callables) is not serialized. -/
def toDoc (s : XoptState) : XoptDoc :=
  { vocs := s.vocs
    generatorBlock := ("name", Val.sc (.str s.generator.name)) :: s.generator.params
    maxWorkers := s.evaluator.max_workers
    strict := s.strict
    dump_file := s.dump_file
    max_evaluations := s.max_evaluations
    serialize_torch := s.serialize_torch
    serialize_inline := s.serialize_inline
    data := s.data }

/-- The embedding of `data["generator"].pop("name")`: read the
discriminator and remove it from the block. -/
def popName (r : Row) : Option (String × Row) :=
  match r.lookup "name" with
  | some (Val.sc (.str n)) => some (n, r.filter (fun kv => ¬ kv.1 = "name"))
  | _ => none

/-- Modelled from the spec: the generator registry (`get_generator` from
`xopt/generators`, not under `src/`) — a registry mapping each registered
name to a constructor that builds that generator variant from its
parameter fields and the problem definition.  Runtime-only state starts
fresh. -/
def get_generator (reg : List String) (n : String) : Option (Row → VOCS → GenState) :=
  if n ∈ reg then
    some (fun params _ =>
      { name := n, params := params, data := [], isStateOwner := false,
        isSequential := false, is_active := false, candidate := [],
        generate := fun _ => none })
  else none

/-- A placeholder objective callable for a reconstructed evaluator: the
evaluator's callable is a runtime object, outside the serialized
document's scalar fields. -/
def defaultEvalRow : Row → Row := fun r => r

/-- The embedding of `Xopt.validate_model` + `validate_data`
reconstruction: pop the `name` discriminator from the generator block,
dispatch through the registry to build the generator variant from the
remaining fields, then (per `validate_data`) mirror the supplied dataset
into the generator — `add_data` for an accumulative generator, `set_data`
for a state-owning one. -/
def fromDoc (reg : List String) (doc : XoptDoc) : Option XoptState :=
  match popName doc.generatorBlock with
  | none => none
  | some (n, params) =>
    match get_generator reg n with
    | none => none
    | some mk =>
      let g0 := mk params doc.vocs
      let g1 :=
        match doc.data with
        | none => g0
        | some d => if g0.isStateOwner then { g0 with data := d }
                    else { g0 with data := g0.data ++ d }
      some
        { vocs := doc.vocs
          generator := g1
          evaluator := { max_workers := doc.maxWorkers, evalRow := defaultEvalRow }
          strict := doc.strict
          dump_file := doc.dump_file
          max_evaluations := doc.max_evaluations
          data := doc.data
          serialize_torch := doc.serialize_torch
          serialize_inline := doc.serialize_inline }

/-! Basic lemmas about reindexing and `add_data`. -/

theorem reindexFrom_length (start : Nat) (rows : List Row) :
    (reindexFrom start rows).length = rows.length := by
  simp [reindexFrom]

theorem dfIndex_reindexFrom (start : Nat) (rows : List Row) :
    dfIndex (reindexFrom start rows) = (List.range rows.length).map (fun i => start + i) := by
  unfold dfIndex reindexFrom
  rw [List.map_map, ← List.enum_map_fst rows, List.map_map]
  rfl

theorem reindexFrom_map_snd (start : Nat) (rows : List Row) :
    (reindexFrom start rows).map Prod.snd = rows := by
  unfold reindexFrom
  rw [List.map_map]
  have h : (Prod.snd ∘ fun p : Nat × Row => (start + p.1, p.2)) = Prod.snd := rfl
  rw [h, List.enum_map_snd]

/-- A frame has the dense ascending index `0..n-1`. -/
def denseDF (d : DF) : Prop := dfIndex d = List.range d.length

theorem n_data_eq_length (s : XoptState) : n_data s = (dataOrEmpty s).length := by
  cases h : s.data <;> simp [n_data, dataOrEmpty, h]

theorem add_data_data (s : XoptState) (rows : List Row) :
    (s.add_data rows).data =
      some (dataOrEmpty s ++ reindexFrom (dataOrEmpty s).length rows) := by
  cases h : s.data <;> simp [XoptState.add_data, dataOrEmpty, h]

theorem n_data_add_data (s : XoptState) (rows : List Row) :
    n_data (s.add_data rows) = n_data s + rows.length := by
  rw [n_data_eq_length, n_data_eq_length]
  simp [add_data_data, dataOrEmpty, reindexFrom_length]

theorem denseDF_add_data (s : XoptState) (rows : List Row)
    (h : denseDF (dataOrEmpty s)) :
    denseDF (dataOrEmpty (s.add_data rows)) := by
  have hd := add_data_data s rows
  unfold denseDF at h ⊢
  have h2 : dataOrEmpty (s.add_data rows) =
      dataOrEmpty s ++ reindexFrom (dataOrEmpty s).length rows := by
    unfold dataOrEmpty at hd ⊢
    rw [hd]
    rfl
  rw [h2, dfIndex, List.map_append, ← dfIndex, ← dfIndex, h, dfIndex_reindexFrom,
    List.length_append, reindexFrom_length, List.range_add]

/-- A finite sequence of `add_data` calls, folded over the driver state. -/
def applyBatches (s : XoptState) (batches : List (List Row)) : XoptState :=
  batches.foldl (fun st b => st.add_data b) s

theorem applyBatches_dense (batches : List (List Row)) :
    ∀ s : XoptState, denseDF (dataOrEmpty s) →
      denseDF (dataOrEmpty (applyBatches s batches)) ∧
      n_data (applyBatches s batches) = n_data s + (batches.map List.length).sum := by
  induction batches with
  | nil => intro s h; simpa [applyBatches] using h
  | cons b bs ih =>
    intro s h
    have h2 := ih (s.add_data b) (denseDF_add_data s b h)
    refine ⟨by simpa [applyBatches] using h2.1, ?_⟩
    have h3 : applyBatches s (b :: bs) = applyBatches (s.add_data b) bs := by
      simp [applyBatches]
    rw [h3, h2.2, n_data_add_data]
    simp
    omega

/-! Concrete fixtures used by witnesses and counterexamples. -/

/-- A small problem definition: one variable `x`, one objective `f`, one
constant `c = 5`. -/
def cVocs : VOCS :=
  { vars := ["x"], objectives := ["f"], constraints := [],
    constants := [("c", Val.sc (.num 5))] }

/-- A concrete evaluator: two workers, constant numeric objective. -/
def cEval : Evaluator :=
  { max_workers := 2,
    evalRow := fun _ => [("x", Val.sc (.num 1)), ("f", Val.sc (.num 0))] }

/-- A concrete non-sequential generator that never proposes candidates. -/
def cGen : GenState :=
  { name := "random", params := [], data := [], isStateOwner := false,
    isSequential := false, is_active := false, candidate := [],
    generate := fun _ => none }

/-- A concrete driver state with an empty dataset. -/
def cState : XoptState :=
  { vocs := cVocs, generator := cGen, evaluator := cEval, strict := true,
    dump_file := none, max_evaluations := none, data := none,
    serialize_torch := false, serialize_inline := false }

/-- A concrete input row for the variable `x`. -/
def cRow : Row := [("x", Val.sc (.num 1))]

/-- C2: starting from an empty dataset, any finite sequence of `add_data`
calls with arbitrary chunk sizes leaves the index exactly the dense
ascending sequence `0..n-1`, `n` the total number of rows added. -/
theorem add_data_dense_from_empty (s : XoptState) (batches : List (List Row))
    (h : s.data = none ∨ s.data = some []) :
    dfIndex (dataOrEmpty (applyBatches s batches)) =
      List.range ((batches.map List.length).sum) ∧
    n_data (applyBatches s batches) = (batches.map List.length).sum := by
  have hempty : dataOrEmpty s = [] := by
    cases h with
    | inl h1 => simp [dataOrEmpty, h1]
    | inr h1 => simp [dataOrEmpty, h1]
  have hdense : denseDF (dataOrEmpty s) := by
    rw [denseDF, hempty]
    rfl
  have hn : n_data s = 0 := by rw [n_data_eq_length, hempty]; rfl
  have hmain := applyBatches_dense batches s hdense
  have hlen := hmain.2
  rw [hn, Nat.zero_add] at hlen
  refine ⟨?_, hlen⟩
  have hidx := hmain.1
  rw [denseDF] at hidx
  rw [hidx, ← n_data_eq_length, hlen]

/-- Witness for C2: three rows added in chunks of 1 and 2 yield the index
`[0, 1, 2]`. -/
theorem add_data_dense_from_empty_witness :
    dfIndex (dataOrEmpty (applyBatches cState [[cRow], [cRow, cRow]])) = [0, 1, 2] := by
  have h := add_data_dense_from_empty cState [[cRow], [cRow, cRow]] (Or.inl rfl)
  rw [h.1]
  decide

theorem add_data_gen_data (s : XoptState) (rows : List Row) :
    (s.add_data rows).generator.data =
      s.generator.data ++ reindexFrom (dataOrEmpty s).length rows := by
  cases h : s.data <;> simp [XoptState.add_data, genAddData, dataOrEmpty, h]

/-- A driver state whose dataset was supplied at construction with the
non-dense integer index `[0, 5]` (`validate_data` accepts any integer
index on a DataFrame). -/
def c8State : XoptState := { cState with data := some [(0, cRow), (5, cRow)] }

/-- Counterexample to C8: on the dataset indexed `[0, 5]`, `add_data`
assigns the new row the index `len(data) = 2`, not
`max(existing index) + 1 = 6`. -/
theorem add_data_max_plus_one_counterexample :
    dfIndex (dataOrEmpty (c8State.add_data [cRow])) = [0, 5, 2] ∧
    ¬ dfIndex (dataOrEmpty (c8State.add_data [cRow])) = [0, 5, 6] := by
  constructor
  · rfl
  · decide

/-- C8 (amended): `add_data` assigns the new rows consecutive indices
continuing from the current ROW COUNT `len(self.data)` (0 when the
dataset is empty or absent) — which equals `max(index) + 1` only when the
index is dense — and the re-indexed batch is mirrored into the generator
through its accumulative `add_data` capability. -/
theorem add_data_len_indexing (s : XoptState) (rows : List Row) :
    (s.add_data rows).data = some (dataOrEmpty s ++ reindexFrom (n_data s) rows) ∧
    dfIndex (reindexFrom (n_data s) rows) =
      (List.range rows.length).map (fun i => n_data s + i) ∧
    (s.add_data rows).generator.data = s.generator.data ++ reindexFrom (n_data s) rows := by
  refine ⟨?_, dfIndex_reindexFrom (n_data s) rows, ?_⟩
  · rw [n_data_eq_length]
    exact add_data_data s rows
  · rw [n_data_eq_length]
    exact add_data_gen_data s rows

/-- Dataset/generator-mirror agreement: the core invariant of spec
section 3. -/
def Mirrors (s : XoptState) : Prop := s.generator.data = dataOrEmpty s

theorem remove_data_inplace_eq (s : XoptState) (d : DF) (indices : List Nat)
    (hd : s.data = some d)
    (hall : indices.all (fun i => i ∈ dfIndex d) = true) :
    s.remove_data indices true =
      .ok ({ s with
              data := some (reindexFrom 0 ((d.filter (fun p => ¬ p.1 ∈ indices)).map Prod.snd)),
              generator := { s.generator with
                data := reindexFrom 0 ((d.filter (fun p => ¬ p.1 ∈ indices)).map Prod.snd) } },
            none) := by
  unfold XoptState.remove_data
  rw [hd]
  simp [hall]

theorem remove_data_copy_eq (s : XoptState) (d : DF) (indices : List Nat)
    (hd : s.data = some d)
    (hall : indices.all (fun i => i ∈ dfIndex d) = true) :
    s.remove_data indices false =
      .ok (s, some (reindexFrom 0 ((d.filter (fun p => ¬ p.1 ∈ indices)).map Prod.snd))) := by
  unfold XoptState.remove_data
  rw [hd]
  simp [hall]

theorem dfIndex_reindexFrom_zero (rows : List Row) :
    dfIndex (reindexFrom 0 rows) = List.range rows.length := by
  rw [dfIndex_reindexFrom]
  simp

/-- C9: after every successful mutation — `add_data`, `reset_data`, and
`remove_data` with `inplace=True` (which re-densifies the remaining index
to `0..m-1`) — the generator mirror matches the dataset row-for-row;
`remove_data` with `inplace=False` returns a detached re-densified copy
and leaves the state (dataset and mirror) untouched. -/
theorem mutation_mirror_invariant (s : XoptState) (rows : List Row)
    (indices : List Nat) (s2 s3 : XoptState) (r2 r3 : Option DF)
    (hm : Mirrors s) :
    Mirrors (s.add_data rows) ∧
    Mirrors s.reset_data ∧
    (s.remove_data indices true = .ok (s2, r2) →
      Mirrors s2 ∧ r2 = none ∧ dfIndex (dataOrEmpty s2) = List.range (n_data s2)) ∧
    (s.remove_data indices false = .ok (s3, r3) →
      s3 = s ∧ ∀ nd, r3 = some nd → dfIndex nd = List.range nd.length) := by
  refine ⟨?_, ?_, ?_, ?_⟩
  · unfold Mirrors at hm ⊢
    rw [add_data_gen_data, hm]
    have h2 : dataOrEmpty (s.add_data rows) =
        dataOrEmpty s ++ reindexFrom (dataOrEmpty s).length rows := by
      have hd := add_data_data s rows
      unfold dataOrEmpty at hd ⊢
      rw [hd]
      rfl
    rw [h2]
  · unfold Mirrors XoptState.reset_data dataOrEmpty
    rfl
  · intro h
    unfold XoptState.remove_data at h
    cases hd : s.data with
    | none => rw [hd] at h; exact absurd h (by simp)
    | some d =>
      rw [hd] at h
      by_cases hall : indices.all (fun i => i ∈ dfIndex d) = true
      · simp only [hall, if_true, if_pos] at h
        have h2 := h
        injection h2 with h3
        injection h3 with h4 h5
        subst h4
        refine ⟨?_, h5.symm, ?_⟩
        · unfold Mirrors dataOrEmpty
          rfl
        · unfold dataOrEmpty n_data
          simp [dfIndex_reindexFrom_zero, reindexFrom_length]
      · simp only [hall, if_false] at h
        simp at hall
        exact absurd h (by simp [hall])
  · intro h
    unfold XoptState.remove_data at h
    cases hd : s.data with
    | none => rw [hd] at h; exact absurd h (by simp)
    | some d =>
      rw [hd] at h
      by_cases hall : indices.all (fun i => i ∈ dfIndex d) = true
      · simp only [hall, if_true, if_pos] at h
        have h2 := h
        injection h2 with h3
        injection h3 with h4 h5
        subst h4
        refine ⟨rfl, ?_⟩
        intro nd hnd
        rw [← h5] at hnd
        injection hnd with h6
        rw [← h6]
        simp [dfIndex_reindexFrom_zero, reindexFrom_length]
      · simp only [hall, if_false] at h
        simp at hall
        exact absurd h (by simp [hall])

/-- A concrete state whose mirror agrees with its two-row dataset. -/
def c9s : XoptState :=
  { cState with
    data := some [(0, cRow), (1, cRow)]
    generator := { cGen with data := [(0, cRow), (1, cRow)] } }

/-- The state after removing row 0 of `c9s` in place. -/
def c9rm : XoptState :=
  match c9s.remove_data [0] true with
  | .ok (x, _) => x
  | .error _ => c9s

/-- The detached copy returned by removing row 0 of `c9s` with
`inplace=False`. -/
def c9copy : Option DF :=
  match c9s.remove_data [0] false with
  | .ok (_, r) => r
  | .error _ => none

/-- Witness for C9 at a concrete two-row state. -/
theorem mutation_mirror_invariant_witness :
    Mirrors (c9s.add_data [cRow]) ∧ Mirrors c9s.reset_data ∧
    (Mirrors c9rm ∧ dfIndex (dataOrEmpty c9rm) = [0]) ∧
    (∀ nd, c9copy = some nd → dfIndex nd = List.range nd.length) := by
  have h := mutation_mirror_invariant c9s [cRow] [0] c9rm c9s none c9copy rfl
  refine ⟨h.1, h.2.1, ?_, ?_⟩
  · have h3 := h.2.2.1 rfl
    refine ⟨h3.1, ?_⟩
    exact h3.2.2.trans (by decide)
  · exact fun nd hnd => (h.2.2.2 rfl).2 nd hnd

/-- C1: under strict mode, when the evaluator's result table fails the
declared-output validation (a missing objective/constraint column or a
non-numeric value in one), `evaluate_data` fails with
OutputValidationError and the dataset is left unchanged: the caller's
post-call state is the pre-call state, so pre/post row counts are
identical and no row of the batch is stored.  The other validations are
assumed to pass (they would abort even earlier, also without mutating). -/
theorem strict_output_failure (s : XoptState) (input : DF)
    (hstrict : s.strict = true)
    (hin : validate_input_data s.vocs input = true)
    (hseq : (s.generator.isSequential && s.generator.is_active
      && !(validate_point s.generator (addConstantsDF s.vocs input))) = false)
    (hout : validate_outputs s.vocs
      (evalData s.evaluator (addConstantsDF s.vocs input)) = false) :
    s.evaluate_data input = .error .OutputValidationError ∧
    evaluateDataRes s input = s ∧
    n_data (evaluateDataRes s input) = n_data s := by
  have h1 : s.evaluate_data input = .error .OutputValidationError := by
    unfold XoptState.evaluate_data
    simp [hin, hseq, hstrict, hout]
  have h2 : evaluateDataRes s input = s := by
    unfold evaluateDataRes
    rw [h1]
  exact ⟨h1, h2, by rw [h2]⟩

/-- An evaluator whose result rows omit the declared objective `f`. -/
def c1Eval : Evaluator :=
  { max_workers := 2, evalRow := fun _ => [("x", Val.sc (.num 1))] }

/-- A strict driver holding one evaluated row, with the broken evaluator. -/
def c1State : XoptState :=
  { cState with evaluator := c1Eval, data := some [(0, cRow)] }

/-- Witness for C1: the concrete strict call fails with
OutputValidationError and the row count stays 1. -/
theorem strict_output_failure_witness :
    c1State.evaluate_data (reindexFrom 0 [cRow]) = .error .OutputValidationError ∧
    n_data (evaluateDataRes c1State (reindexFrom 0 [cRow])) = 1 := by
  have h := strict_output_failure c1State (reindexFrom 0 [cRow])
    rfl (by decide) (by decide) (by decide)
  exact ⟨h.1, by rw [h.2.2]; rfl⟩

/-- A pass-through evaluator revealing exactly which record it was given. -/
def c4Eval : Evaluator := { max_workers := 1, evalRow := fun r => r }

/-- A driver with the pass-through evaluator (constant `c = 5` declared). -/
def c4State : XoptState := { cState with evaluator := c4Eval }

/-- The raw result of an ad hoc `evaluate`, when it succeeds. -/
def evalResult (s : XoptState) (r : Row) : Option Row :=
  match s.evaluate r with
  | .ok (_, out) => some out
  | .error _ => none

/-- Counterexample to C4: `evaluate` delegates the ORIGINAL record
(`input_dict`), not the constants-merged copy.  With a pass-through
evaluator and declared constant `c = 5`, the raw result is `{x: 1}`, not
the merged `{x: 1, c: 5}` the claim predicts. -/
theorem evaluate_merged_delegation_counterexample :
    evalResult c4State cRow = some cRow ∧
    ¬ evalResult c4State cRow =
      some (c4State.evaluator.evalRow (setConsts c4State.vocs.constants cRow)) := by
  constructor
  · rfl
  · decide

/-- C4 (amended): `evaluate(record)` merges the declared constants into a
deep COPY of the record, validates the merged copy's schema, delegates
the ORIGINAL record to the evaluator, and returns the raw evaluator
result; the driver state (hence the dataset) is returned unchanged and
the result is never stored, and on schema mismatch it fails with
ValidationError. -/
theorem evaluate_adhoc (s : XoptState) (input : Row) :
    (validateInputRow s.vocs (setConsts s.vocs.constants input) = true →
      s.evaluate input = .ok (s, s.evaluator.evalRow input)) ∧
    (validateInputRow s.vocs (setConsts s.vocs.constants input) = false →
      s.evaluate input = .error .ValidationError) := by
  constructor
  · intro h
    unfold XoptState.evaluate
    simp [h]
  · intro h
    unfold XoptState.evaluate
    simp [h]

/-- Witness for C4 (amended): the valid record `{x: 1}` is delegated
as-is; the record `{y: 1}` fails schema validation of its merged copy. -/
theorem evaluate_adhoc_witness :
    c4State.evaluate cRow = .ok (c4State, cRow) ∧
    c4State.evaluate [("y", Val.sc (.num 1))] = .error .ValidationError := by
  refine ⟨(evaluate_adhoc c4State cRow).1 (by decide), ?_⟩
  exact (evaluate_adhoc c4State [("y", Val.sc (.num 1))]).2 (by decide)

theorem all_cons_eq_head {L0 : Nat} {rest : List Nat}
    (h : rest.all (fun x => x = L0) = true) :
    ∀ x ∈ L0 :: rest, x = L0 := by
  intro x hx
  cases hx with
  | head => rfl
  | tail _ hx2 => exact of_decide_eq_true (List.all_eq_true.mp h x hx2)

theorem mem_listOutputLens (v : VOCS) (r : Row) (k : String) (l : List SVal)
    (hmem : (k, Val.vlist l) ∈ r) (hout : k ∈ outputNames v) :
    l.length ∈ listOutputLens v r := by
  unfold listOutputLens
  apply List.mem_filterMap.mpr
  refine ⟨(k, Val.vlist l), hmem, ?_⟩
  simp [hout]

/-- C5: the explosion step of `evaluate_data`.  When every list-valued
output cell of a result row has the same length `L`, the row explodes
into `L` rows (`(List.range L).map ...`), one per list element, with
scalar and non-output cells broadcast unchanged to all `L` rows; when two
list-valued output cells disagree in length the row processor — and,
through it, `evaluate_data` — fails with ShapeError, with no truncation
or padding (the error result stores nothing); on success `evaluate_data`
appends exactly the exploded rows. -/
theorem explosion_policy (v : VOCS) (r : Row) (L : Nat) (s : XoptState)
    (input : DF) :
    ((listOutputLens v r ≠ []) → (∀ x ∈ listOutputLens v r, x = L) →
      explodeRow v r = .ok ((List.range L).map (fun i => r.map (explodeEntry v i)))) ∧
    (∀ (i : Nat) (kv : String × Val), kv.2.isList = false ∨ ¬ kv.1 ∈ outputNames v →
      explodeEntry v i kv = kv) ∧
    (∀ (i : Nat) (k : String) (l : List SVal), k ∈ outputNames v →
      explodeEntry v i (k, Val.vlist l) = (k, Val.sc (l.getD i .null))) ∧
    (∀ (k1 : String) (l1 : List SVal) (k2 : String) (l2 : List SVal),
      (k1, Val.vlist l1) ∈ r → (k2, Val.vlist l2) ∈ r →
      k1 ∈ outputNames v → k2 ∈ outputNames v → ¬ l1.length = l2.length →
      explodeRow v r = .error .ShapeError) ∧
    (validate_input_data s.vocs input = true →
      (s.generator.isSequential && s.generator.is_active
        && !(validate_point s.generator (addConstantsDF s.vocs input))) = false →
      (s.strict && !(validate_outputs s.vocs
        (evalData s.evaluator (addConstantsDF s.vocs input)))) = false →
      ((explodeAllColumns s.vocs (evalData s.evaluator (addConstantsDF s.vocs input)) =
          .error .ShapeError →
        s.evaluate_data input = .error .ShapeError ∧ evaluateDataRes s input = s) ∧
       (∀ ex, explodeAllColumns s.vocs (evalData s.evaluator (addConstantsDF s.vocs input)) =
          .ok ex →
        s.evaluate_data input = .ok (s.add_data (ex.map Prod.snd), ex)))) := by
  refine ⟨?_, ?_, ?_, ?_, ?_⟩
  · intro hne hall
    unfold explodeRow
    cases hl : listOutputLens v r with
    | nil => exact absurd hl hne
    | cons L0 rest =>
      have hL0 : L0 = L := hall L0 (by rw [hl]; exact List.mem_cons_self L0 rest)
      have hrest : rest.all (fun x => x = L0) = true := by
        apply List.all_eq_true.mpr
        intro x hx
        have hx2 : x = L := hall x (by rw [hl]; exact List.mem_cons_of_mem L0 hx)
        simp [hx2, hL0]
      simp [hrest, hL0]
      intro x hx
      exact hall x (by rw [hl]; exact List.mem_cons_of_mem L0 hx)
  · intro i kv h
    cases h with
    | inl h1 =>
      unfold explodeEntry
      cases hv : kv.2 with
      | sc a => split <;> rfl
      | vlist l => rw [hv] at h1; exact absurd h1 (by simp [Val.isList])
    | inr h1 => unfold explodeEntry; simp [h1]
  · intro i k l hout
    unfold explodeEntry
    simp [hout]
  · intro k1 l1 k2 l2 hm1 hm2 ho1 ho2 hne
    have hmem1 := mem_listOutputLens v r k1 l1 hm1 ho1
    have hmem2 := mem_listOutputLens v r k2 l2 hm2 ho2
    unfold explodeRow
    cases hl : listOutputLens v r with
    | nil => rw [hl] at hmem1; exact absurd hmem1 (List.not_mem_nil _)
    | cons L0 rest =>
      rw [hl] at hmem1 hmem2
      by_cases hall : rest.all (fun x => x = L0) = true
      · have he1 := all_cons_eq_head hall l1.length hmem1
        have he2 := all_cons_eq_head hall l2.length hmem2
        exact absurd (he1.trans he2.symm) hne
      · simp [hall]
  · intro hin hseq hstrict
    constructor
    · intro hexp
      have h1 : s.evaluate_data input = .error .ShapeError := by
        unfold XoptState.evaluate_data
        simp [hin, hseq, hstrict, hexp]
      exact ⟨h1, by unfold evaluateDataRes; rw [h1]⟩
    · intro ex hexp
      unfold XoptState.evaluate_data
      simp [hin, hseq, hstrict, hexp]

/-- A problem definition with two objectives `f`, `g` and no constants. -/
def c5Vocs : VOCS :=
  { vars := ["x"], objectives := ["f", "g"], constraints := [], constants := [] }

/-- A result row whose two list-valued output cells agree in length 3. -/
def c5RowOk : Row :=
  [("x", Val.sc (.num 7)),
   ("f", Val.vlist [.num 1, .num 2, .num 3]),
   ("g", Val.vlist [.num 4, .num 5, .num 6])]

/-- A result row whose list-valued output cells have lengths 3 and 2. -/
def c5RowBad : Row :=
  [("x", Val.sc (.num 7)),
   ("f", Val.vlist [.num 1, .num 2, .num 3]),
   ("g", Val.vlist [.num 4, .num 5])]

/-- An evaluator producing the mismatched-lengths result row. -/
def c5EvalBad : Evaluator := { max_workers := 1, evalRow := fun _ => c5RowBad }

/-- A driver whose evaluator produces mismatched list-valued outputs. -/
def c5State : XoptState := { cState with vocs := c5Vocs, evaluator := c5EvalBad }

/-- Witness for C5: the equal-length row explodes into exactly 3 rows
with `x` broadcast; the mismatched row — and the `evaluate_data` call
producing it — fails with ShapeError. -/
theorem explosion_policy_witness :
    explodeRow c5Vocs c5RowOk =
      .ok [[("x", Val.sc (.num 7)), ("f", Val.sc (.num 1)), ("g", Val.sc (.num 4))],
           [("x", Val.sc (.num 7)), ("f", Val.sc (.num 2)), ("g", Val.sc (.num 5))],
           [("x", Val.sc (.num 7)), ("f", Val.sc (.num 3)), ("g", Val.sc (.num 6))]] ∧
    explodeRow c5Vocs c5RowBad = .error .ShapeError ∧
    c5State.evaluate_data (reindexFrom 0 [cRow]) = .error .ShapeError := by
  refine ⟨?_, ?_, ?_⟩
  · have h1 := (explosion_policy c5Vocs c5RowOk 3 c5State (reindexFrom 0 [cRow])).1
      (by decide) (by decide)
    exact h1.trans (by rfl)
  · exact (explosion_policy c5Vocs c5RowBad 3 c5State (reindexFrom 0 [cRow])).2.2.2.1
      "f" [.num 1, .num 2, .num 3] "g" [.num 4, .num 5]
      (by decide) (by decide) (by decide) (by decide) (by decide)
  · exact (((explosion_policy c5Vocs c5RowBad 3 c5State (reindexFrom 0 [cRow])).2.2.2.2
      (by decide) (by decide) (by decide)).1 (by rfl)).1

/-- C6: when the active generator is a sequential variant holding an
outstanding proposed-but-unevaluated candidate, an input that does not
match the candidate makes `evaluate_data` fail with ValidationError
before the evaluator is invoked (the result is the same for EVERY
evaluator) and leaves the dataset unchanged; a matching input proceeds
and appends its evaluated (exploded) rows. -/
theorem sequential_order_enforcement (s : XoptState) (input : DF)
    (hseq : s.generator.isSequential = true)
    (hact : s.generator.is_active = true) :
    (validate_input_data s.vocs input = true →
      validate_point s.generator (addConstantsDF s.vocs input) = false →
      (∀ e : Evaluator,
        ({ s with evaluator := e } : XoptState).evaluate_data input =
          .error .ValidationError) ∧
      evaluateDataRes s input = s) ∧
    (validate_input_data s.vocs input = true →
      validate_point s.generator (addConstantsDF s.vocs input) = true →
      (s.strict && !(validate_outputs s.vocs
        (evalData s.evaluator (addConstantsDF s.vocs input)))) = false →
      ∀ ex, explodeAllColumns s.vocs
          (evalData s.evaluator (addConstantsDF s.vocs input)) = .ok ex →
        s.evaluate_data input = .ok (s.add_data (ex.map Prod.snd), ex) ∧
        n_data (s.add_data (ex.map Prod.snd)) = n_data s + ex.length) := by
  constructor
  · intro hin hmis
    have herr : ∀ e : Evaluator,
        ({ s with evaluator := e } : XoptState).evaluate_data input =
          .error .ValidationError := by
      intro e
      unfold XoptState.evaluate_data
      simp [hin, hseq, hact, hmis]
    refine ⟨herr, ?_⟩
    unfold evaluateDataRes
    rw [herr s.evaluator]
  · intro hin hmatch hstrict ex hexp
    have hok : s.evaluate_data input = .ok (s.add_data (ex.map Prod.snd), ex) := by
      unfold XoptState.evaluate_data
      simp [hin, hseq, hact, hmatch, hstrict, hexp]
    refine ⟨hok, ?_⟩
    rw [n_data_add_data]
    simp [reindexFrom_length]

/-- A sequential generator holding the outstanding candidate `{x: 1}`. -/
def c6Gen : GenState :=
  { name := "neldermead", params := [], data := [], isStateOwner := false,
    isSequential := true, is_active := true,
    candidate := [("x", Val.sc (.num 1))], generate := fun _ => none }

/-- A driver with the active sequential generator. -/
def c6State : XoptState := { cState with generator := c6Gen }

/-- The exploded result frame of evaluating the matching input `{x: 1}`. -/
def c6ex : DF :=
  match explodeAllColumns cVocs
      (evalData cEval (addConstantsDF cVocs (reindexFrom 0 [cRow]))) with
  | .ok d => d
  | .error _ => []

/-- Witness for C6: `evaluate_data({x: 2})` fails with ValidationError
while the candidate is `{x: 1}`; `evaluate_data({x: 1})` succeeds and
appends one row. -/
theorem sequential_order_enforcement_witness :
    c6State.evaluate_data (reindexFrom 0 [[("x", Val.sc (.num 2))]]) =
      .error .ValidationError ∧
    c6State.evaluate_data (reindexFrom 0 [cRow]) =
      .ok (c6State.add_data (c6ex.map Prod.snd), c6ex) ∧
    n_data (c6State.add_data (c6ex.map Prod.snd)) = n_data c6State + 1 := by
  have hmis := (sequential_order_enforcement c6State
    (reindexFrom 0 [[("x", Val.sc (.num 2))]]) rfl rfl).1 (by decide) (by decide)
  have hmat := (sequential_order_enforcement c6State
    (reindexFrom 0 [cRow]) rfl rfl).2 (by decide) (by decide) (by decide) c6ex rfl
  refine ⟨hmis.1 c6State.evaluator, hmat.1, hmat.2.trans (by rfl)⟩

/-- The generator contract of spec section 4.2: `generate(n)` returns at
most `n` candidates. -/
def GoodGen (g : GenState) : Prop :=
  ∀ (n : Nat) (df : DF), g.generate n = some df → df.length ≤ n

/-- An evaluator whose result rows contain no list-valued cells, so no
result row explodes into several dataset rows. -/
def ScalarEval (e : Evaluator) : Prop :=
  ∀ (r : Row) (kv : String × Val), kv ∈ e.evalRow r → kv.2.isList = false

theorem explodeRow_scalar (v : VOCS) (r : Row)
    (h : ∀ kv ∈ r, (kv : String × Val).2.isList = false) :
    explodeRow v r = .ok [r] := by
  have hl : listOutputLens v r = [] := by
    unfold listOutputLens
    apply List.filterMap_eq_nil_iff.mpr
    intro kv hkv
    have h2 := h kv hkv
    cases hv : kv.2 with
    | sc a => split <;> simp [hv]
    | vlist l => rw [hv] at h2; exact absurd h2 (by simp [Val.isList])
  unfold explodeRow
  rw [hl]

theorem mapM_explode_scalar (v : VOCS) (d : DF)
    (h : ∀ p ∈ d, ∀ kv ∈ (p : Nat × Row).2, (kv : String × Val).2.isList = false) :
    d.mapM (fun p => explodeRow v p.2) = .ok (d.map (fun p => [p.2])) := by
  induction d with
  | nil => rfl
  | cons p t ih =>
    have hp := explodeRow_scalar v p.2 (h p (List.mem_cons_self p t))
    have ht := ih (fun q hq => h q (List.mem_cons_of_mem p hq))
    rw [List.mapM_cons, hp, ht]
    rfl

theorem flatten_map_singleton (d : DF) :
    (d.map (fun p => [p.2])).flatten = d.map Prod.snd := by
  induction d with
  | nil => rfl
  | cons p t ih => simp [ih]

theorem explodeAllColumns_scalar (v : VOCS) (d : DF)
    (h : ∀ p ∈ d, ∀ kv ∈ (p : Nat × Row).2, (kv : String × Val).2.isList = false) :
    explodeAllColumns v d = .ok (reindexFrom 0 (d.map Prod.snd)) := by
  unfold explodeAllColumns
  rw [mapM_explode_scalar v d h]
  show Except.ok (reindexFrom 0 (d.map (fun p => [p.2])).flatten) = _
  rw [flatten_map_singleton]

theorem add_data_preserves (s : XoptState) (rows : List Row) :
    (s.add_data rows).generator.generate = s.generator.generate ∧
    (s.add_data rows).evaluator = s.evaluator ∧
    (s.add_data rows).max_evaluations = s.max_evaluations := by
  cases h : s.data <;> simp [XoptState.add_data, genAddData, h]

theorem evaluate_data_ok_shape (s : XoptState) (input : DF) (s2 : XoptState)
    (out : DF) (hsc : ScalarEval s.evaluator)
    (h : s.evaluate_data input = .ok (s2, out)) :
    n_data s2 = n_data s + input.length ∧
    s2.generator.generate = s.generator.generate ∧
    s2.evaluator = s.evaluator ∧
    s2.max_evaluations = s.max_evaluations := by
  have hscal2 : ∀ p ∈ evalData s.evaluator (addConstantsDF s.vocs input),
      ∀ kv ∈ (p : Nat × Row).2, (kv : String × Val).2.isList = false := by
    intro p hp kv hkv
    rcases List.mem_map.mp hp with ⟨q, hq, hpq⟩
    rw [← hpq] at hkv
    exact hsc q.2 kv hkv
  have hexp := explodeAllColumns_scalar s.vocs _ hscal2
  unfold XoptState.evaluate_data at h
  by_cases hin : validate_input_data s.vocs input = true
  · by_cases hseqb : (s.generator.isSequential && s.generator.is_active
      && !(validate_point s.generator (addConstantsDF s.vocs input))) = true
    · simp [hin, hseqb] at h
    · have hseq2 : (s.generator.isSequential && s.generator.is_active
          && !(validate_point s.generator (addConstantsDF s.vocs input))) = false := by
        revert hseqb
        cases s.generator.isSequential && s.generator.is_active
          && !(validate_point s.generator (addConstantsDF s.vocs input)) <;> simp
      by_cases hstb : (s.strict && !(validate_outputs s.vocs
          (evalData s.evaluator (addConstantsDF s.vocs input)))) = true
      · simp [hin, hseq2, hstb] at h
      · have hst2 : (s.strict && !(validate_outputs s.vocs
            (evalData s.evaluator (addConstantsDF s.vocs input)))) = false := by
          revert hstb
          cases s.strict && !(validate_outputs s.vocs
            (evalData s.evaluator (addConstantsDF s.vocs input))) <;> simp
        simp [hin, hseq2, hst2, hexp] at h
        obtain ⟨h1, h2⟩ := h
        rw [← h1]
        have hlen : ((reindexFrom 0 ((evalData s.evaluator
            (addConstantsDF s.vocs input)).map Prod.snd)).map Prod.snd).length
            = input.length := by
          rw [reindexFrom_map_snd]
          simp [evalData, addConstantsDF]
        refine ⟨?_, (add_data_preserves s _).1, (add_data_preserves s _).2.1,
          (add_data_preserves s _).2.2⟩
        rw [n_data_add_data, hlen]
  · have hin2 : validate_input_data s.vocs input = false := by
      revert hin
      cases validate_input_data s.vocs input <;> simp
    simp [hin2] at h

theorem step_bound (s s2 : XoptState)
    (hgen : GoodGen s.generator) (hsc : ScalarEval s.evaluator)
    (hstep : s.step = .ok s2) :
    n_data s2 ≤ n_data s + s.evaluator.max_workers ∧
    s2.generator.generate = s.generator.generate ∧
    s2.evaluator = s.evaluator ∧
    s2.max_evaluations = s.max_evaluations := by
  unfold XoptState.step at hstep
  split at hstep
  next hg =>
    injection hstep with h
    subst h
    exact ⟨Nat.le_add_right _ _, rfl, rfl, rfl⟩
  next samples hg =>
    split at hstep
    next s3 out he =>
      injection hstep with h
      subst h
      have hshape := evaluate_data_ok_shape s samples s3 out hsc he
      have hn := hgen s.evaluator.max_workers samples hg
      exact ⟨by omega, hshape.2.1, hshape.2.2.1, hshape.2.2.2⟩
    next e he =>
      exact absurd hstep (by simp)

theorem runLoop_lower (cap : Nat) :
    ∀ (fuel : Nat) (s s2 : XoptState),
      runLoop cap s fuel = .ok (some s2) → cap ≤ n_data s2 := by
  intro fuel
  induction fuel with
  | zero => intro s s2 h; exact absurd h (by simp [runLoop])
  | succ n ih =>
    intro s s2 h
    unfold runLoop at h
    by_cases hc : cap ≤ n_data s
    · rw [if_pos hc] at h
      injection h with h2
      injection h2 with h3
      rw [← h3]
      exact hc
    · rw [if_neg hc] at h
      cases hs : s.step with
      | error e => rw [hs] at h; exact absurd h (by simp)
      | ok s3 => rw [hs] at h; exact ih s3 s2 h

theorem runLoop_upper_aux (cap mw : Nat) :
    ∀ (fuel : Nat) (s s2 : XoptState),
      GoodGen s.generator → ScalarEval s.evaluator →
      s.evaluator.max_workers = mw →
      (n_data s < cap ∨ n_data s ≤ cap - 1 + mw) →
      runLoop cap s fuel = .ok (some s2) →
      n_data s2 ≤ cap - 1 + mw := by
  intro fuel
  induction fuel with
  | zero => intro s s2 _ _ _ _ h; exact absurd h (by simp [runLoop])
  | succ n ih =>
    intro s s2 hgen hsc hmw hd h
    unfold runLoop at h
    by_cases hc : cap ≤ n_data s
    · rw [if_pos hc] at h
      injection h with h2
      injection h2 with h3
      rw [← h3]
      cases hd with
      | inl h4 => omega
      | inr h4 => exact h4
    · rw [if_neg hc] at h
      cases hs : s.step with
      | error e => rw [hs] at h; exact absurd h (by simp)
      | ok s3 =>
        rw [hs] at h
        have hb := step_bound s s3 hgen hsc hs
        have hgen3 : GoodGen s3.generator := by
          unfold GoodGen
          rw [hb.2.1]
          exact hgen
        have hsc3 : ScalarEval s3.evaluator := by
          unfold ScalarEval
          rw [hb.2.2.1]
          exact hsc
        have hmw3 : s3.evaluator.max_workers = mw := by rw [hb.2.2.1, hmw]
        refine ih s3 s2 hgen3 hsc3 hmw3 (Or.inr ?_) h
        rw [hmw] at hb
        omega

/-- C3 (amended): `run()` fails with the configuration error when no
evaluation cap is set; with a cap it repeats `step()` while the row count
is below the cap, and whenever it terminates the final row count is at
least the cap; the upper bound `cap + max_workers - 1` additionally
requires that the run START below the cap (a dataset already above the
bound exits the loop untouched) and that no result row explodes (the
generator contract `generate(n) <= n` and one scalar result row per
candidate give at most `max_workers` new rows per step). -/
theorem run_cap_bounds (s : XoptState) (fuel cap : Nat) (s2 : XoptState) :
    (s.max_evaluations = none → runFuel s fuel = .error .ConfigurationError) ∧
    (s.max_evaluations = some cap → runFuel s fuel = .ok (some s2) →
      cap ≤ n_data s2) ∧
    (s.max_evaluations = some cap → GoodGen s.generator →
      ScalarEval s.evaluator → n_data s < cap →
      runFuel s fuel = .ok (some s2) →
      n_data s2 ≤ cap + s.evaluator.max_workers - 1) := by
  refine ⟨?_, ?_, ?_⟩
  · intro h
    unfold runFuel
    rw [h]
  · intro hcap h
    unfold runFuel at h
    rw [hcap] at h
    exact runLoop_lower cap fuel s s2 h
  · intro hcap hgen hsc hlt h
    unfold runFuel at h
    rw [hcap] at h
    have hb := runLoop_upper_aux cap s.evaluator.max_workers fuel s s2 hgen hsc
      rfl (Or.inl hlt) h
    omega

/-- A driver constructed with ten pre-existing rows, cap 5, two workers. -/
def c3Bad : XoptState :=
  { cState with
    data := some (reindexFrom 0 (List.replicate 10 cRow))
    max_evaluations := some 5 }

/-- Counterexample to C3: with cap 5, `max_workers = 2` and an initial
dataset of 10 rows, `run()` terminates immediately with 10 rows —
violating the claimed universal upper bound `cap + (max_workers - 1) = 6`. -/
theorem run_overshoot_counterexample :
    runFuel c3Bad 1 = .ok (some c3Bad) ∧
    c3Bad.evaluator.max_workers = 2 ∧
    n_data c3Bad = 10 ∧
    ¬ n_data c3Bad ≤ 5 + (2 - 1) := by
  refine ⟨rfl, rfl, rfl, by decide⟩

/-- A generator that always proposes exactly the `n` requested copies of
the candidate `{x: 1}`. -/
def c3Gen : GenState :=
  { cGen with generate := fun n => some (reindexFrom 0 (List.replicate n cRow)) }

/-- A driver starting empty with cap 5 and the always-proposing generator. -/
def c3Run : XoptState :=
  { cState with generator := c3Gen, max_evaluations := some 5 }

theorem c3Gen_good : GoodGen c3Run.generator := by
  intro n df h
  injection h with h2
  rw [← h2, reindexFrom_length, List.length_replicate]

theorem cEval_scalar : ScalarEval cEval := by
  intro r kv h
  cases h with
  | head => rfl
  | tail _ h2 =>
    cases h2 with
    | head => rfl
    | tail _ h3 => exact absurd h3 (List.not_mem_nil kv)

/-- The final state of the concrete bounded run. -/
def c3Final : XoptState :=
  match runFuel c3Run 10 with
  | .ok (some x) => x
  | _ => c3Run

/-- Witness for C3 (amended): no cap fails; the concrete run from empty
with cap 5 and 2 workers ends with `5 ≤ rows ≤ 6`. -/
theorem run_cap_bounds_witness :
    runFuel cState 1 = .error .ConfigurationError ∧
    5 ≤ n_data c3Final ∧ n_data c3Final ≤ 5 + 2 - 1 := by
  refine ⟨(run_cap_bounds cState 1 0 cState).1 rfl, ?_, ?_⟩
  · exact (run_cap_bounds c3Run 10 5 c3Final).2.1 rfl (by rfl)
  · exact (run_cap_bounds c3Run 10 5 c3Final).2.2 rfl c3Gen_good cEval_scalar
      (by decide) (by rfl)

/-- C10: with a cap set and the row count below it, a generator that
declines every request (`generate` returns none) makes each `step()` a
no-op returning the state unchanged, and `run()` loops forever: for every
amount of fuel the loop is still running (no final state, no error). -/
theorem run_diverges_when_generator_declines (s : XoptState) (cap : Nat)
    (hgen : ∀ n : Nat, s.generator.generate n = none)
    (hcap : s.max_evaluations = some cap)
    (hlt : n_data s < cap) :
    s.step = .ok s ∧ ∀ fuel : Nat, runFuel s fuel = .ok none := by
  have hstep : s.step = .ok s := by
    unfold XoptState.step
    rw [hgen]
  refine ⟨hstep, ?_⟩
  have hrf : ∀ f : Nat, runFuel s f = runLoop cap s f := by
    intro f
    unfold runFuel
    rw [hcap]
  intro fuel
  rw [hrf fuel]
  induction fuel with
  | zero => rfl
  | succ n ih =>
    have hred : runLoop cap s (n + 1) =
        if cap ≤ n_data s then .ok (some s)
        else
          match s.step with
          | .error e => .error e
          | .ok s3 => runLoop cap s3 n := rfl
    rw [hred, if_neg (Nat.not_le.mpr hlt), hstep]
    exact ih

/-- A driver with cap 5, an empty dataset, and the declining generator. -/
def c10State : XoptState := { cState with max_evaluations := some 5 }

/-- Witness for C10 at fuel 7. -/
theorem run_diverges_witness :
    c10State.step = .ok c10State ∧ runFuel c10State 7 = .ok none := by
  have h := run_diverges_when_generator_declines c10State 5
    (fun n => rfl) rfl (by decide)
  exact ⟨h.1, h.2 7⟩


theorem lookup_none_not_mem (params : Row)
    (hnp : params.lookup "name" = none) :
    ∀ (a : String) (b : Val), (a, b) ∈ params → ¬ a = "name" := by
  induction params with
  | nil => intro a b h; exact absurd h (List.not_mem_nil _)
  | cons kv t ih =>
    intro a b hab hname
    by_cases hk : ("name" == kv.1) = true
    · rw [List.lookup_cons, hk] at hnp
      exact absurd hnp (by simp)
    · have hk2 : ("name" == kv.1) = false := by
        revert hk
        cases "name" == kv.1 <;> simp
      rw [List.lookup_cons, hk2] at hnp
      cases hab with
      | head =>
        subst hname
        simp at hk2
      | tail _ h2 => exact ih hnp a b h2 hname

theorem filter_ne_of_lookup_none (params : Row)
    (hnp : params.lookup "name" = none) :
    params.filter (fun kv => ¬ kv.1 = "name") = params := by
  apply List.filter_eq_self.mpr
  intro kv hkv
  have h := lookup_none_not_mem params hnp kv.1 kv.2 hkv
  simp [h]

/-- The generator rebuilt by the registry from a serialized block: same
name and parameters, fresh runtime state, mirror populated from the
document's dataset. -/
def reDoc (s : XoptState) (d : Option DF) : GenState :=
  { name := s.generator.name, params := s.generator.params, data := d.getD [],
    isStateOwner := false, isSequential := false, is_active := false,
    candidate := [], generate := fun _ => none }

theorem fromDoc_toDoc (reg : List String) (s : XoptState)
    (hreg : s.generator.name ∈ reg)
    (hnp : s.generator.params.lookup "name" = none) :
    fromDoc reg (toDoc s) = some
      { vocs := s.vocs
        generator := reDoc s s.data
        evaluator := { max_workers := s.evaluator.max_workers, evalRow := defaultEvalRow }
        strict := s.strict
        dump_file := s.dump_file
        max_evaluations := s.max_evaluations
        data := s.data
        serialize_torch := s.serialize_torch
        serialize_inline := s.serialize_inline } := by
  unfold fromDoc toDoc popName get_generator
  simp [List.lookup, hreg, filter_ne_of_lookup_none s.generator.params hnp]
  cases hd : s.data <;> simp [reDoc] <;>
    exact lookup_none_not_mem s.generator.params hnp

/-- C7: reconstructing a driver from the document it produces — the
generator block tagged with the registered name as discriminator —
succeeds whenever the name is registered, and yields a driver with the
same problem definition, the same generator variant (name) with the same
parameters, the same scalar settings (strict, cap, dump target,
serialization flags, worker count), and identical dataset contents, the
dataset also re-mirrored into the generator; runtime-only generator state
is excluded from the contract. -/
theorem serialization_round_trip (reg : List String) (s s2 : XoptState)
    (hreg : s.generator.name ∈ reg)
    (hnp : s.generator.params.lookup "name" = none) :
    (fromDoc reg (toDoc s)).isSome ∧
    (fromDoc reg (toDoc s) = some s2 →
      s2.vocs = s.vocs ∧
      s2.generator.name = s.generator.name ∧
      s2.generator.params = s.generator.params ∧
      s2.strict = s.strict ∧
      s2.max_evaluations = s.max_evaluations ∧
      s2.dump_file = s.dump_file ∧
      s2.serialize_torch = s.serialize_torch ∧
      s2.serialize_inline = s.serialize_inline ∧
      s2.evaluator.max_workers = s.evaluator.max_workers ∧
      s2.data = s.data ∧
      s2.generator.data = dataOrEmpty s) := by
  have hfd := fromDoc_toDoc reg s hreg hnp
  refine ⟨by rw [hfd]; rfl, ?_⟩
  intro h
  rw [hfd] at h
  injection h with h2
  rw [← h2]
  exact ⟨rfl, rfl, rfl, rfl, rfl, rfl, rfl, rfl, rfl, rfl, rfl⟩

/-- The driver reconstructed from `cState`'s serialized document. -/
def c7s2 : XoptState :=
  match fromDoc ["random"] (toDoc cState) with
  | some x => x
  | none => cState

/-- Witness for C7 at the concrete driver `cState` (generator registered
as "random"). -/
theorem serialization_round_trip_witness :
    (fromDoc ["random"] (toDoc cState)).isSome ∧
    c7s2.vocs = cState.vocs ∧
    c7s2.generator.name = cState.generator.name ∧
    c7s2.generator.params = cState.generator.params ∧
    c7s2.data = cState.data := by
  have h := serialization_round_trip ["random"] cState c7s2 (by decide) rfl
  have h2 := h.2 (by rfl)
  obtain ⟨hv, hn, hp, _, _, _, _, _, _, hdata, _⟩ := h2
  exact ⟨h.1, hv, hn, hp, hdata⟩
